import Mathlib

/-!
Shallow embedding of the overtalkerr conversation engine:
the result ranking pipeline (`overseerr.pick_best`), the fuzzy re-ranking
stage (`enhanced_search.SearchEnhancer.fuzzy_match_results`), the backend
search error classification (`media_backends.OverseerrBackend.search` and the
`overseerr.search` wrapper), and the intent handlers
(`unified_voice_handler.UnifiedVoiceHandler.handle_download` / `handle_yes` /
`handle_no`).

Python values are modelled as follows: optional / possibly-absent dict fields
become `Option`; string and integer truthiness is modelled explicitly
(`""`, `None` and `0` are falsy); machine integers are `Int`/`Nat`; code that
can raise returns `Except PyErr`.  External library calls (the rapidfuzz
similarity metrics and the query-enhancement regex pipeline output) are
parameters of the embedded functions, since their implementations live outside
the repository.
-/

namespace Overtalkerr
/-- Python `bool(s)` for an optional string: `None` and `""` are falsy. -/
def pyTruthy (o : Option String) : Bool :=
  match o with
  | some s => s ≠ ""
  | none => false

/-- Python `a or b` on optional strings (first truthy value wins). -/
def pyOrS (a b : Option String) : Option String :=
  if pyTruthy a then a else b

/-- Python `bool(n)` for an optional int: `None` and `0` are falsy. -/
def pyTruthyI (o : Option Int) : Bool :=
  match o with
  | some n => n ≠ 0
  | none => false

/-- Python `a or b` on optional ints (first truthy value wins; `0` is falsy). -/
def pyOrI (a b : Option Int) : Option Int :=
  if pyTruthyI a then a else b

/-- Python `f"{x}"` for an optional string: `None` prints as `"None"`. -/
def pyStr (o : Option String) : String :=
  match o with
  | some s => s
  | none => "None"

/-- Python substring test `pat in s`. -/
def containsSub (s pat : String) : Bool :=
  (List.range (s.toList.length + 1)).any fun i =>
    pat.toList.isPrefixOf (s.toList.drop i)

/-- `s.lower()` (ASCII, computable by structural recursion). -/
def pyLower (s : String) : String :=
  String.mk (s.toList.map Char.toLower)

/-- Python slice `s[:n]` (computable by structural recursion). -/
def pyTake (s : String) (n : Nat) : String :=
  String.mk (s.toList.take n)

/-- ASCII whitespace, as stripped by Python `int()`. -/
def pyIsSpace (c : Char) : Bool :=
  c == ' ' || c == '\t' || c == '\n' || c == '\r'

/-- Strip leading and trailing whitespace from a char list. -/
def stripList (l : List Char) : List Char :=
  ((l.dropWhile pyIsSpace).reverse.dropWhile pyIsSpace).reverse

/-- Split a char list on a separator character (like `str.split(sep)`). -/
def splitChar (sep : Char) : List Char → List (List Char)
  | [] => [[]]
  | c :: cs =>
    let r := splitChar sep cs
    if c = sep then [] :: r
    else
      match r with
      | [] => [[c]]
      | h :: t => (c :: h) :: t

instance {ε α : Type} [DecidableEq ε] [DecidableEq α] : DecidableEq (Except ε α) :=
  fun a b =>
    match a, b with
    | .ok x, .ok y =>
      if h : x = y then .isTrue (by rw [h]) else .isFalse (fun hc => h (by cases hc; rfl))
    | .error x, .error y =>
      if h : x = y then .isTrue (by rw [h]) else .isFalse (fun hc => h (by cases hc; rfl))
    | .ok _, .error _ => .isFalse (fun hc => Except.noConfusion hc)
    | .error _, .ok _ => .isFalse (fun hc => Except.noConfusion hc)

/-- Digits of a char list folded into a natural number. -/
def digitsToNat (l : List Char) : Nat :=
  l.foldl (fun n c => n * 10 + (c.toNat - 48)) 0

/-- Python `int(s)`: optional sign followed by digits (whitespace stripped). -/
def pyInt? (s : String) : Option Int :=
  let signed : Int × List Char :=
    match stripList s.toList with
    | '-' :: rest => (-1, rest)
    | '+' :: rest => (1, rest)
    | l => (1, l)
  if signed.2 ≠ [] ∧ signed.2.all Char.isDigit then
    some (signed.1 * (digitsToNat signed.2 : Int))
  else none

/-- Leftmost match of the regex `(\d{4})`: the first run of four digits. -/
def findFourDigits (s : String) : Option String :=
  let l := s.toList
  (List.range l.length).findSome? fun i =>
    let seg := (l.drop i).take 4
    if seg.length = 4 ∧ seg.all Char.isDigit then some (String.mk seg) else none

/-- Leftmost match of the regex `(\d+)` converted with `int(...)`. -/
def firstIntRun (s : String) : Option Int :=
  let l := s.toList.dropWhile (fun c => ¬ c.isDigit)
  match l with
  | [] => none
  | _ => some ((digitsToNat (l.takeWhile Char.isDigit) : Nat) : Int)

/-- A Python `datetime.date` value (year, month, day). -/
structure PyDate where
  y : Nat
  m : Nat
  d : Nat
  deriving Repr, DecidableEq, Inhabited

/-- Date comparison `a < b` (lexicographic on year, month, day). -/
def PyDate.ltb (a b : PyDate) : Bool :=
  a.y < b.y ∨ (a.y = b.y ∧ (a.m < b.m ∨ (a.m = b.m ∧ a.d < b.d)))

/-- Date comparison `a <= b`. -/
def PyDate.leb (a b : PyDate) : Bool :=
  a.ltb b ∨ a = b

/-- `date.toordinal()`: an order-embedding of dates into `Nat`; the code only
ever compares these ordinals, never inspects their value. -/
def PyDate.toOrd (a : PyDate) : Nat :=
  a.y * 512 + a.m * 32 + a.d

/-- `datetime.date.fromisoformat` / `datetime.fromisoformat` on the
date-only ISO strings (`YYYY-MM-DD`) the media backends return; anything
else fails to parse. -/
def pyDate? (s : String) : Option PyDate :=
  match splitChar '-' s.toList with
  | [ys, ms, ds] =>
    if ys.length = 4 ∧ ys.all Char.isDigit ∧
       ms.length = 2 ∧ ms.all Char.isDigit ∧
       ds.length = 2 ∧ ds.all Char.isDigit then
      let m := digitsToNat ms
      let d := digitsToNat ds
      if 1 ≤ m ∧ m ≤ 12 ∧ 1 ≤ d ∧ d ≤ 31 then
        some ⟨digitsToNat ys, m, d⟩
      else none
    else none
  | _ => none

/-- `overseerr.parse_date`: parse the first ten characters as an ISO date,
`None` input or a parse failure gives `None`. -/
def parse_date (s : Option String) : Option PyDate :=
  match s with
  | none => none
  | some str0 => if str0 = "" then none else pyDate? (pyTake str0 10)

/-- One search result: the enriched dict shape produced by
`media_backends` normalization (`normalize_result`).  Underscore-prefixed
dict keys are kept as field names; absent-or-`None` keys are `none`. -/
structure MediaItem where
  id : Option Int := none
  mediaId : Option Int := none
  tmdbId : Option Int := none
  title : Option String := none
  name : Option String := none
  _title : Option String := none
  _releaseDate : Option String := none
  _date : Option PyDate := none
  _mediaType : Option String := none
  _isAvailable : Bool := false
  _isProcessing : Bool := false
  _isPending : Bool := false
  _isPartiallyAvailable : Bool := false
  _combined_score : Option Nat := none
  _fuzzy_score : Option Nat := none
  deriving Repr, DecidableEq, Inhabited

/-! ### Stable sorting

Python's `sorted(..., key=k, reverse=True)` and `list.sort(key=k,
reverse=True)` are stable descending sorts: elements with equal keys keep
their original relative order.  `sortStable le` inserts each element before
the first existing element `b` with `le a b` true; instantiating `le a b`
with "key of `b` ≤ key of `a`" yields exactly the stable descending sort. -/

/-- Insert `a` before the first element it relates to. -/
def insertStable (le : α → α → Bool) (a : α) : List α → List α
  | [] => [a]
  | b :: bs => if le a b then a :: b :: bs else b :: insertStable le a bs

/-- Stable insertion sort with respect to `le`. -/
def sortStable (le : α → α → Bool) : List α → List α
  | [] => []
  | x :: xs => insertStable le x (sortStable le xs)

/-! ### `overseerr.pick_best` -/

/-- Python exceptions the embedded code can leave uncaught: the built-in
runtime errors, and an `OverseerrAuthError` escaping `handle_yes` — that
class subclasses `MediaBackendAuthError`, not `OverseerrError`, so the
handler's `except OverseerrConnectionError` / `except OverseerrError`
clauses do not catch it. -/
inductive PyErr where
  | valueError : String → PyErr
  | typeError : String → PyErr
  | indexError : String → PyErr
  | overseerrAuthError : PyErr
  deriving Repr, DecidableEq

/-- The value actually bound to `pick_best`'s `year_filter` parameter at run
time: the annotation says `Optional[tuple[int, int]]`, but every caller in the
repository passes the string captured from the `(\d{4})` regex. -/
inductive YearArg where
  | range : Int → Int → YearArg
  | str : String → YearArg
  deriving Repr, DecidableEq

/-- The year `pick_best`'s filter parses for one result:
`int(r.get("_releaseDate", "")[:4])`, `none` when the date is falsy or the
conversion raises. -/
def yearOf (r : MediaItem) : Option Int :=
  let release_date := (r._releaseDate).getD ""
  if release_date = "" then none else pyInt? (pyTake release_date 4)

/-- The three-part sort key built by `pick_best.score`:
`(upcoming_score, match_quality, recency)`. -/
def scoreKey (today : PyDate) (upcoming_only : Bool) (r : MediaItem) :
    Nat × Nat × Nat :=
  let upcoming_score : Nat :=
    if upcoming_only && (match r._date with
        | some rdate => today.ltb rdate
        | none => false) then 1 else 0
  let match_quality := (r._combined_score).getD 0
  let recency := match r._date with
    | some rdate => rdate.toOrd
    | none => 0
  (upcoming_score, match_quality, recency)

/-- Lexicographic `<=` on sort-key triples (Python tuple comparison). -/
def tripLe : Nat × Nat × Nat → Nat × Nat × Nat → Bool
  | (a1, a2, a3), (b1, b2, b3) =>
    decide (a1 < b1 ∨ (a1 = b1 ∧ (a2 < b2 ∨ (a2 = b2 ∧ a3 ≤ b3))))

/-- `a` sorts no later than `b` in `sorted(key=score, reverse=True)`:
`b`'s key is `<=` `a`'s key. -/
def pickBestLe (today : PyDate) (upcoming_only : Bool) (a b : MediaItem) : Bool :=
  tripLe (scoreKey today upcoming_only b) (scoreKey today upcoming_only a)

/-- `overseerr.pick_best`: strict year filter (when the argument is truthy)
followed by a stable descending sort on `(upcoming_score, match_quality,
recency)`.  When the caller-supplied string reaches the tuple unpacking
`start_year, end_year = year_filter`, a string of length other than two
raises `ValueError`; a length-two string unpacks into two one-character
strings and the comparison `start_year <= year` then raises `TypeError` at
the first result whose year parses (both uncaught). -/
def pick_best (today : PyDate) (results : List MediaItem) (upcoming_only : Bool)
    (year_filter : Option YearArg) : Except PyErr (List MediaItem) := do
  let results1 ← (match year_filter with
    | none => Except.ok results
    | some (.range start_year end_year) =>
        Except.ok (results.filter fun r =>
          match yearOf r with
          | some year => decide (start_year ≤ year ∧ year ≤ end_year)
          | none => false)
    | some (.str s) =>
        if s = "" then Except.ok results
        else if s.length ≠ 2 then
          Except.error (.valueError "too many values to unpack (expected 2)")
        else if results.any fun r => (yearOf r).isSome then
          Except.error (.typeError "not supported between instances of str and int")
        else Except.ok [])
  Except.ok (sortStable (pickBestLe today upcoming_only) results1)

/-! ### `SearchEnhancer.fuzzy_match_results` -/

/-- Title lookup in `fuzzy_match_results`:
`result.get('_title', result.get('title', result.get('name', '')))`. -/
def getTitleF (r : MediaItem) : String :=
  match r._title with
  | some t => t
  | none =>
    match r.title with
    | some t => t
    | none => (r.name).getD ""

/-- `result_copy = result.copy(); result_copy['_fuzzy_score'] = best_score`. -/
def setFuzzy (r : MediaItem) (v : Nat) : MediaItem :=
  { r with _fuzzy_score := some v }

/-- Sort relation of `scored_results.sort(key=lambda x:
x.get('_fuzzy_score', 0), reverse=True)`. -/
def fuzzyLe (a b : MediaItem) : Bool :=
  decide ((b._fuzzy_score).getD 0 ≤ (a._fuzzy_score).getD 0)

/-- `SearchEnhancer.fuzzy_match_results`.  The four rapidfuzz similarity
metrics live outside the repository; `sc` is their pointwise maximum
(`best_score = max(ratio, partial, token_sort, token_set)`), applied as in
the source to the lowercased query and title.  Results scoring below
`threshold` are dropped, survivors carry `_fuzzy_score` and are sorted by it,
descending and stable. -/
def fuzzy_match_results (sc : String → String → Nat) (query : String)
    (results : List MediaItem) (threshold : Nat) : List MediaItem :=
  if results = [] then results
  else
    let scored := results.filterMap fun r =>
      let best_score := sc (pyLower query) (pyLower (getTitleF r))
      if threshold ≤ best_score then some (setFuzzy r best_score) else none
    sortStable fuzzyLe scored

/-! ### Backend search error classification -/

/-- The exceptions that can escape the `try` body of
`OverseerrBackend.search`: the two transport failures, the explicitly raised
`MediaBackendAuthError`, and `HTTPError` from `raise_for_status`. -/
inductive PyExc where
  | timeoutExc
  | connectionExc
  | mediaBackendAuth (msg : String)
  | httpError (status : Nat)
  deriving Repr, DecidableEq

/-- Python `str(e)` for the exceptions above. -/
def PyExc.msg : PyExc → String
  | .timeoutExc => "timeout"
  | .connectionExc => "connection"
  | .mediaBackendAuth m => m
  | .httpError status => toString status ++ " Error"

/-- The `media_backends` error taxonomy (`MediaBackendAuthError` and
`MediaBackendConnectionError` are subclasses of `MediaBackendError`). -/
inductive BackendExc where
  | authError (msg : String)
  | connectionErr (msg : String)
  | backendError (msg : String)
  deriving Repr, DecidableEq

/-- The downstream interaction of one search call, as the `try` body
observes it: a transport failure or an HTTP response carrying a status code
and (for successful responses) the normalized result list. -/
inductive HttpEvent where
  | timeout
  | connFail
  | response (status : Nat) (results : List MediaItem)
  deriving Repr, DecidableEq

/-- The `try` body of `OverseerrBackend.search`: 401/403 raises
`MediaBackendAuthError`, `resp.raise_for_status()` raises `HTTPError` for
any other status `>= 400`, otherwise the normalized results are returned. -/
def search_try_body (ev : HttpEvent) : Except PyExc (List MediaItem) :=
  match ev with
  | .timeout => Except.error .timeoutExc
  | .connFail => Except.error .connectionExc
  | .response status results =>
    if status = 401 ∨ status = 403 then
      Except.error (.mediaBackendAuth "Invalid API key")
    else if 400 ≤ status then Except.error (.httpError status)
    else Except.ok results

/-- `OverseerrBackend.search`: the `except` clauses in source order —
`requests.exceptions.Timeout` and `requests.exceptions.ConnectionError`
become `MediaBackendConnectionError`, and the final `except Exception`
wraps everything else (including the `MediaBackendAuthError` raised inside
the `try` body) into a plain `MediaBackendError`. -/
def overseerrBackend_search (ev : HttpEvent) : Except BackendExc (List MediaItem) :=
  match search_try_body ev with
  | .ok results => .ok results
  | .error .timeoutExc => .error (.connectionErr "Request timeout")
  | .error .connectionExc => .error (.connectionErr "Connection failed")
  | .error e => .error (.backendError ("Search failed: " ++ e.msg))

/-- The error taxonomy the conversation engine branches on
(`OverseerrConnectionError` / `OverseerrAuthError` / `OverseerrError`). -/
inductive OvError where
  | conn
  | auth
  | generic
  deriving Repr, DecidableEq

/-- `overseerr.search` (non-mock path): re-raises the backend taxonomy as
the `Overseerr*` aliases — `MediaBackendAuthError` as `OverseerrAuthError`,
`MediaBackendConnectionError` as `OverseerrConnectionError`, anything else
as `OverseerrError`. -/
def overseerr_search (ev : HttpEvent) : Except OvError (List MediaItem) :=
  match overseerrBackend_search ev with
  | .ok results => .ok results
  | .error (.authError _) => .error .auth
  | .error (.connectionErr _) => .error .conn
  | .error (.backendError _) => .error .generic

/-! ### Conversation engine data shapes -/

/-- `voice_assistant_adapter.VoiceResponse`. -/
structure VoiceResponse where
  speech : String
  reprompt : Option String := none
  should_end_session : Bool := false
  card_title : Option String := none
  card_text : Option String := none
  deriving Repr, DecidableEq

/-- The session-state dict persisted by `save_state`.  Keys that a given
save leaves out read back as their falsy defaults (`state.get(...)`). -/
structure SessState where
  query : Option String := none
  media_type : Option String := none
  year : Option String := none
  upcoming_only : Bool := false
  season : Option Int := none
  results : List MediaItem := []
  index : Nat := 0
  user_term : Option String := none
  pending_year_filter_question : Bool := false
  pending_did_you_mean_question : Bool := false
  pending_media_type_clarification : Bool := false
  clarification_type : Option String := none
  deriving Repr, DecidableEq

/-- The response dict of `overseerr.request_media` (only its `message` key
is inspected by the engine). -/
structure ReqResult where
  message : Option String := none
  deriving Repr, DecidableEq

/-- One handler turn: the neutral response, the state written through
`save_state` (if any), and the `overseerr.request_media` invocation made
(if any), recorded as `(media_id, media_type, season)`. -/
structure HandlerOut where
  resp : VoiceResponse
  save : Option SessState := none
  requested : Option (Int × String × Option Int) := none
  deriving Repr, DecidableEq

/-- The `temporal` side-value of `SearchEnhancer.parse_enhanced_query`. -/
inductive Temporal where
  | relative (days : Int)
  | yearT (year : Int)
  deriving Repr, DecidableEq

/-- The output of `SearchEnhancer.parse_enhanced_query` that
`handle_download` consumes (`cast` and `genre` are extracted but unused by
the handler). -/
structure ParsedQuery where
  cleaned_query : String
  temporal : Option Temporal := none
  deriving Repr, DecidableEq

/-- The normalized slot map of a Download request. -/
structure Slots where
  MediaTitle : Option String := none
  title : Option String := none
  Year : Option String := none
  year : Option String := none
  MediaType : Option String := none
  mediaType : Option String := none
  Upcoming : Option String := none
  upcoming : Option String := none
  Season : Option String := none
  season : Option String := none
  deriving Repr, DecidableEq

/-- Python list indexing `l[i]` (raises `IndexError` out of range). -/
def pyIndex (l : List α) (i : Nat) : Except PyErr α :=
  match l.get? i with
  | some x => Except.ok x
  | none => Except.error (.indexError "list index out of range")

/-! ### Speech builders -/

/-- `media_type_from_text`: substring checks on the lowercased text. -/
def media_type_from_text (text : Option String) : Option String × Option String :=
  match text with
  | none => (none, none)
  | some txt =>
    if txt = "" then (none, none)
    else
      let t := pyLower txt
      if containsSub t "tv" then (some "tv", some "TV show")
      else if containsSub t "show" ∨ containsSub t "series" then (some "tv", some "show")
      else if containsSub t "film" then (some "movie", some "film")
      else if containsSub t "movie" then (some "movie", some "movie")
      else (none, none)

/-- `build_speech_for_item` (the `prefix` parameter is `pre` here). -/
def build_speech_for_item (today : PyDate) (item : MediaItem) (pre : String)
    (user_term : Option String) : String :=
  let title := (pyOrS (pyOrS (pyOrS item._title item.title) item.name)
    (some "Unknown title")).getD ""
  let mtype := (pyOrS item._mediaType (some "title")).getD ""
  let yearUnrel : Option String × Bool :=
    match item._releaseDate with
    | some rds =>
      if rds = "" then (none, false)
      else
        let unrel := match pyDate? rds with
          | some rd => today.ltb rd
          | none => false
        (some (pyTake rds 4), unrel)
    | none => (none, false)
  let year := yearUnrel.1
  let is_unreleased := yearUnrel.2
  let type_word :=
    if pyTruthy user_term ∧ (mtype = "movie" ∨ mtype = "tv") then (user_term).getD ""
    else if mtype = "movie" then "movie" else "TV show"
  let speech :=
    match year with
    | some yr =>
      if is_unreleased then pre ++ " the " ++ type_word ++ " " ++ title ++ ", releasing in " ++ yr
      else pre ++ " the " ++ type_word ++ " " ++ title ++ ", released in " ++ yr
    | none => pre ++ " the " ++ type_word ++ " " ++ title
  if item._isAvailable then
    speech ++ ". This is already in your library. Were you thinking of a different one?"
  else if item._isPartiallyAvailable then
    speech ++ ". This is partially in your library. Is that the one you want?"
  else if item._isProcessing then
    speech ++ ". This is currently being downloaded. Is that the one you want?"
  else if item._isPending then
    speech ++ ". This has already been requested and is pending approval. Is that the one you want?"
  else if is_unreleased then
    speech ++ ". That hasn\x27t been released yet. Would you like to request it anyway?"
  else speech ++ ". Is that the one you want?"

/-- `build_speech_for_next`. -/
def build_speech_for_next (item : MediaItem) (user_term : Option String) : String :=
  let title := (pyOrS item._title (some "Unknown title")).getD ""
  let mtype := (pyOrS item._mediaType (some "title")).getD ""
  let year : Option String :=
    match item._releaseDate with
    | some rds => if rds = "" then none else some (pyTake rds 4)
    | none => none
  let type_word :=
    if pyTruthy user_term ∧ (mtype = "movie" ∨ mtype = "tv") then (user_term).getD ""
    else if mtype = "movie" then "movie" else "TV show"
  match year with
  | some yr => "What about the " ++ type_word ++ " " ++ title ++ ", released in " ++ yr ++ "?"
  | none => "What about the " ++ type_word ++ " " ++ title ++ "?"

/-- `release_date.strftime('%B')`. -/
def monthName : Nat → String
  | 1 => "January"
  | 2 => "February"
  | 3 => "March"
  | 4 => "April"
  | 5 => "May"
  | 6 => "June"
  | 7 => "July"
  | 8 => "August"
  | 9 => "September"
  | 10 => "October"
  | 11 => "November"
  | 12 => "December"
  | _ => ""

/-- The day-of-month ordinal suffix logic of `build_availability_message`. -/
def ordSuffix (day : Nat) : String :=
  if 10 ≤ day % 100 ∧ day % 100 ≤ 20 then "th"
  else
    match day % 10 with
    | 1 => "st"
    | 2 => "nd"
    | 3 => "rd"
    | _ => "th"

/-- `build_availability_message` (its `season_number` parameter is unused in
the source body as well). -/
def build_availability_message (today : PyDate) (item : MediaItem)
    (season_number : Option Int) : String :=
  match item._releaseDate with
  | none => "It should be available soon."
  | some rds =>
    if rds = "" then "It should be available soon."
    else
      match pyDate? rds with
      | none => "It should be available soon."
      | some rd =>
        if rd.leb today then "It should be available soon."
        else
          let date_spoken := monthName rd.m ++ " " ++ toString rd.d ++ ordSuffix rd.d
          let date_spoken :=
            if rd.y ≠ today.y then date_spoken ++ ", " ++ toString rd.y else date_spoken
          "It\x27ll be downloaded once it\x27s released, which we\x27re expecting to be on "
            ++ date_spoken ++ "."

/-! ### Upcoming-only computation (`handle_download` lines 299-313) -/

/-- Python `\w` (ASCII range). -/
def isWordChar (c : Char) : Bool := c.isAlphanum || c = '_'

/-- `re.search(r"\bupcoming\b", s, re.IGNORECASE)` truthiness: some
occurrence of `upcoming` in the lowercased text with non-word characters
(or ends of string) on both sides. -/
def containsWordUpcoming (s : String) : Bool :=
  let l := s.toList.map Char.toLower
  let pat := "upcoming".toList
  (List.range l.length).any fun i =>
    decide ((l.drop i).take 8 = pat) &&
    (decide (i = 0) || ! isWordChar (l.getD (i - 1) ' ')) &&
    (decide (l.length ≤ i + 8) || ! isWordChar (l.getD (i + 8) ' '))

/-- The `upcoming_only` flag as `handle_download` computes it: the
`Upcoming` slot's truthy strings, overridden to `True` when the title
contains the whole word "upcoming", then the enhancer's relative temporal
filter with negative day window. -/
def computeUpcomingOnly (media_title : String) (upcoming_text : Option String)
    (temporal : Option Temporal) : Bool :=
  let upcoming_only := false
  let upcoming_only :=
    if pyTruthy upcoming_text then
      decide (pyLower (upcoming_text.getD "") ∈ (["yes", "true", "1", "upcoming"] : List String))
    else upcoming_only
  let upcoming_only :=
    if media_title ≠ "" ∧ containsWordUpcoming media_title then true else upcoming_only
  match temporal with
  | some (.relative days) => if days < 0 then true else upcoming_only
  | _ => upcoming_only

/-! ### Intent handlers -/

/-- `UnifiedVoiceHandler.handle_yes`.  External calls appear as parameters:
`today` for `datetime.now()`, `reqFn` for `overseerr.request_media`.  The
request call's `except` clauses catch `OverseerrConnectionError` and
`OverseerrError` only; an `OverseerrAuthError` (subclass of
`MediaBackendAuthError`, a sibling of `OverseerrError`, raisable by the
Ombi backend's request path on 401/403) matches neither clause and
propagates out of the handler. -/
def handle_yes (today : PyDate)
    (reqFn : Int → String → Option Int → Except OvError ReqResult)
    (state? : Option SessState) : Except PyErr HandlerOut :=
  match state? with
  | none =>
    Except.ok ⟨⟨"I don\x27t have an active search. Please say a title to start a new download request.",
      some "What would you like to download?", false, none, none⟩, none, none⟩
  | some state =>
    if state.pending_media_type_clarification then
      let clarification_type := state.clarification_type
      let results := state.results
      let filtered_results := results.filter fun r => r._mediaType = clarification_type
      match filtered_results with
      | first :: _ =>
        let state1 := { state with
                        pending_media_type_clarification := false,
                        results := filtered_results, index := 0,
                        media_type := clarification_type }
        let speech := build_speech_for_item today first "I found" state.user_term
        Except.ok ⟨⟨speech, some "Is that the one you want?", false, some "Overtalkerr", some speech⟩,
          some state1, none⟩
      | [] =>
        Except.ok ⟨⟨"I don\x27t have any results of that type. Try a new search.",
          none, true, none, none⟩, none, none⟩
    else if state.pending_year_filter_question then
      let state1 := { state with pending_year_filter_question := false }
      match state.results with
      | first :: _ =>
        let speech := build_speech_for_item today first "I found" state.user_term
        Except.ok ⟨⟨speech, some "Is that the one you want?", false, some "Overtalkerr", some speech⟩,
          some state1, none⟩
      | [] =>
        Except.ok ⟨⟨"I don\x27t have any results to show. Try a new search.",
          none, true, none, none⟩, some state1, none⟩
    else if state.pending_did_you_mean_question then
      let state1 := { state with pending_did_you_mean_question := false }
      match state.results with
      | first :: _ =>
        let speech := build_speech_for_item today first "I found" state.user_term
        Except.ok ⟨⟨speech, some "Is that the one you want?", false, some "Overtalkerr", some speech⟩,
          some state1, none⟩
      | [] =>
        Except.ok ⟨⟨"I don\x27t have that result anymore. Start a new search.",
          none, true, none, none⟩, some state1, none⟩
    else
      let idx := state.index
      let results := state.results
      if results.length ≤ idx then
        Except.ok ⟨⟨"I\x27ve run out of alternatives. Please start a new search.",
          none, true, none, none⟩, none, none⟩
      else
        match pyIndex results idx with
        | .error e => .error e
        | .ok chosen =>
          let media_id := pyOrI (pyOrI chosen.id chosen.mediaId) chosen.tmdbId
          let media_type := (pyOrS (pyOrS chosen._mediaType state.media_type) (some "movie")).getD ""
          let season_number := state.season
          let title := (chosen._title).getD "the media"
          if ¬ pyTruthyI media_id then
            Except.ok ⟨⟨"I couldn\x27t identify that media. Try searching for a different title.",
              none, true, none, none⟩, none, none⟩
          else
            let mid := media_id.getD 0
            if chosen._isAvailable then
              Except.ok ⟨⟨title ++ " is already in your library! You can watch it now.",
                none, true, none, none⟩, none, none⟩
            else if chosen._isProcessing then
              Except.ok ⟨⟨title ++ " is already being downloaded. It should be available soon!",
                none, true, none, none⟩, none, none⟩
            else if chosen._isPending then
              Except.ok ⟨⟨title ++ " has already been requested and is waiting for approval.",
                none, true, none, none⟩, none, none⟩
            else
              match reqFn mid media_type season_number with
              | .error .conn =>
                Except.ok ⟨⟨"I can\x27t reach the media server right now. Your request wasn\x27t submitted. Check your connection and try again.",
                  none, true, none, none⟩, none, some (mid, media_type, season_number)⟩
              | .error .auth =>
                Except.error .overseerrAuthError
              | .error .generic =>
                Except.ok ⟨⟨"I couldn\x27t create that request. The server might be busy. Try again in a moment.",
                  none, true, none, none⟩, none, some (mid, media_type, season_number)⟩
              | .ok result =>
                let speech :=
                  if pyTruthy result.message ∧
                      containsSub (pyLower (result.message.getD "")) "already requested" then
                    "Good news! That media has already been requested!"
                  else
                    let availability_msg := build_availability_message today chosen season_number
                    if pyTruthyI season_number then
                      "You got it! I\x27ve requested season " ++ toString (season_number.getD 0)
                        ++ " of " ++ title ++ ". " ++ availability_msg
                    else
                      "You got it! I\x27ve requested " ++ title ++ ". " ++ availability_msg
                Except.ok ⟨⟨speech, none, true, some "Request Created", some speech⟩,
                  none, some (mid, media_type, season_number)⟩

/-- `UnifiedVoiceHandler.handle_no`. -/
def handle_no (today : PyDate) (state? : Option SessState) : Except PyErr HandlerOut :=
  match state? with
  | none =>
    Except.ok ⟨⟨"Please tell me the title. For example, say download the movie Jurassic World from 2015.",
      some "Please tell me the title. For example, say download the movie Jurassic World from 2015.",
      false, none, none⟩, none, none⟩
  | some state =>
    if state.pending_media_type_clarification then
      let clarification_type := state.clarification_type
      let results := state.results
      let other_type := if clarification_type = some "movie" then "tv" else "movie"
      let filtered_results := results.filter fun r => r._mediaType = some other_type
      match filtered_results with
      | first :: _ =>
        let state1 := { state with
                        pending_media_type_clarification := false,
                        results := filtered_results, index := 0,
                        media_type := some other_type }
        let count := filtered_results.length
        let other_type_name := if other_type = "tv" then "TV show" else "movie"
        let plural := if count > 1 then "s" else ""
        let speech :=
          if count > 1 then
            "OK, we have " ++ toString count ++ " " ++ other_type_name ++ plural ++ " for you. "
          else "OK, we have a " ++ other_type_name ++ " for you. "
        let item_speech := build_speech_for_item today first "" state.user_term
        let speech := speech ++ item_speech
        Except.ok ⟨⟨speech, some "Is that the one you want?", false, some "Overtalkerr", some speech⟩,
          some state1, none⟩
      | [] =>
        Except.ok ⟨⟨"I don\x27t have any results of that type. Try a new search.",
          none, true, none, none⟩, none, none⟩
    else if state.pending_year_filter_question then
      Except.ok ⟨⟨"Okay. Try searching again with a different year or without the year.",
        none, true, none, none⟩, none, none⟩
    else if state.pending_did_you_mean_question then
      Except.ok ⟨⟨"Okay. Try searching again with a different title.",
        none, true, none, none⟩, none, none⟩
    else
      let idx := state.index
      let results := state.results
      let availResult : Except PyErr (Option MediaItem) :=
        if idx < results.length then
          match pyIndex results idx with
          | .error e => .error e
          | .ok current_item =>
            .ok (if current_item._isAvailable then some current_item else none)
        else .ok none
      match availResult with
      | .error e => .error e
      | .ok (some current_item) =>
        let title := (current_item._title).getD "that title"
        Except.ok ⟨⟨"Perfect! " ++ title ++ " is ready to watch in your library. Enjoy!",
          none, true, none, none⟩, none, none⟩
      | .ok none =>
        let idx := idx + 1
        if results.length ≤ idx then
          Except.ok ⟨⟨"That\x27s all I could find. Would you like to search for something else?",
            some "What would you like to download?", true, none, none⟩, none, none⟩
        else
          match pyIndex results idx with
          | .error e => .error e
          | .ok next_item =>
            let state1 := { state with index := idx }
            let speech := build_speech_for_next next_item state.user_term
            Except.ok ⟨⟨speech, some "Is that the one?", false, some "Overtalkerr", some speech⟩,
              some state1, none⟩

/-- The best-match loop of `handle_download`'s "did you mean" fallback
(strict improvement over a best score starting at 0). -/
def bestRatioMatch (ratioFn : String → String → Nat) (q : String)
    (results : List MediaItem) : Option MediaItem × Nat :=
  results.foldl (fun acc r =>
    let title := (pyOrS (pyOrS r._title r.title) (some ((r.name).getD ""))).getD ""
    let score := ratioFn (pyLower q) (pyLower title)
    if acc.2 < score then (some r, score) else acc) (none, 0)

/-- The `if not ranked:` block of `handle_download`: offer the closest
pre-fuzzy match when its ratio exceeds 40, otherwise the terminal
"couldn\x27t find any matches" response. -/
def download_no_results (ratioFn : String → String → Nat)
    (media_title enhanced_title : String) (media_type : Option String)
    (year_filter : Option String) (upcoming_only : Bool)
    (season_number : Option Int) (user_term : Option String)
    (original_results_count : Nat) (results_before_fuzzy : List MediaItem) :
    HandlerOut :=
  let fallback : HandlerOut :=
    ⟨⟨"I couldn\x27t find any matches for \x27" ++ media_title
        ++ "\x27. Try rephrasing or being more specific.", none, true, none, none⟩,
      none, none⟩
  if original_results_count > 0 then
    match bestRatioMatch ratioFn enhanced_title results_before_fuzzy with
    | (some best_match, best_score) =>
      if best_score > 40 then
        let suggested_title := pyOrS (pyOrS best_match._title best_match.title) best_match.name
        let speech := "I couldn\x27t find \x27" ++ media_title ++ "\x27. Did you mean \x27"
          ++ pyStr suggested_title ++ "\x27?"
        let state : SessState := {
          query := suggested_title, media_type := media_type, year := year_filter,
          upcoming_only := upcoming_only, season := season_number,
          results := [best_match], index := 0, user_term := user_term,
          pending_did_you_mean_question := true }
        ⟨⟨speech, some ("Did you mean \x27" ++ pyStr suggested_title ++ "\x27?"),
          false, some "Overtalkerr", some speech⟩, some state, none⟩
      else fallback
    | (none, _) => fallback
  else fallback

/-- The presentation tail of `handle_download`: media-type clarification for
a mixed movie/tv result set without an explicit type, else the fresh-state
save presenting the first ranked result. -/
def download_present (today : PyDate) (media_title : String)
    (media_type : Option String) (year_filter : Option String)
    (upcoming_only : Bool) (season_number : Option Int)
    (user_term : Option String) (ranked : List MediaItem) : HandlerOut :=
  let tys := (ranked.filterMap fun r =>
    if pyTruthy r._mediaType then r._mediaType else none).dedup
  if media_type = none ∧ ranked.length > 1 ∧ tys.length > 1 ∧
      (some "movie") ∈ tys ∧ (some "tv") ∈ tys then
    let newest0 := ranked.foldl (fun (acc : Option (MediaItem × PyDate)) r =>
      match r._releaseDate with
      | some rds =>
        if rds = "" then acc
        else
          match pyDate? rds with
          | some d =>
            match acc with
            | none => some (r, d)
            | some (_, nd) => if nd.ltb d then some (r, d) else acc
          | none => acc
      | none => acc) none
    let newest := match newest0 with
      | some (r, _) => r
      | none => ranked.headI
    let newest_type := newest._mediaType
    let newest_title := pyOrS (pyOrS newest._title newest.title) newest.name
    let yr : Option String :=
      match newest._releaseDate with
      | some rds => if rds = "" then none else some (pyTake rds 4)
      | none => none
    let type_term :=
      if pyTruthy user_term then (user_term).getD ""
      else if newest_type = some "movie" then "movie" else "TV show"
    let speech :=
      match yr with
      | some y => "Is it a " ++ type_term ++ " named " ++ pyStr newest_title ++ " from "
          ++ y ++ " you\x27re looking for?"
      | none => "Is it a " ++ type_term ++ " named " ++ pyStr newest_title
          ++ " you\x27re looking for?"
    let state : SessState := {
      query := some media_title, media_type := none, year := year_filter,
      upcoming_only := upcoming_only, season := season_number,
      results := ranked, index := 0, user_term := user_term,
      pending_media_type_clarification := true, clarification_type := newest_type }
    ⟨⟨speech, some ("Is it the " ++ type_term ++ " " ++ pyStr newest_title ++ "?"),
      false, some "Overtalkerr", some speech⟩, some state, none⟩
  else
    let state : SessState := {
      query := some media_title, media_type := media_type, year := year_filter,
      upcoming_only := upcoming_only, season := season_number,
      results := ranked, index := 0, user_term := user_term }
    let first := ranked.headI
    let speech := build_speech_for_item today first "I found" user_term
    ⟨⟨speech, some "Is that the one you want?", false, some "Overtalkerr", some speech⟩,
      some state, none⟩

/-- `UnifiedVoiceHandler.handle_download`.  External stages appear as
parameters: `parseQ` for `search_enhancer.parse_enhanced_query`, `searchFn`
for `overseerr.search`, `sc` for the rapidfuzz maximum metric of
`fuzzy_match_results`, `ratioFn` for `fuzz.ratio` in the "did you mean"
fallback. -/
def handle_download (today : PyDate) (parseQ : String → ParsedQuery)
    (searchFn : String → Option String → Except OvError (List MediaItem))
    (sc ratioFn : String → String → Nat) (slots : Slots) :
    Except PyErr HandlerOut :=
  let media_title := pyOrS slots.MediaTitle slots.title
  let year0 := pyOrS slots.Year slots.year
  let media_type_text := pyOrS slots.MediaType slots.mediaType
  let upcoming_text := pyOrS slots.Upcoming slots.upcoming
  let season_text := pyOrS slots.Season slots.season
  if ¬ pyTruthy media_title then
    Except.ok ⟨⟨"Please tell me the title. For example, say download the movie Jurassic World from 2015.",
      some "Please tell me the title. For example, say download the movie Jurassic World from 2015.",
      false, none, none⟩, none, none⟩
  else
    let mt := media_title.getD ""
    let parsed := parseQ mt
    let enhanced_title := parsed.cleaned_query
    let mtut := media_type_from_text media_type_text
    let media_type := mtut.1
    let user_term0 := mtut.2
    let user_term :=
      if ¬ pyTruthy user_term0 ∧ pyTruthy media_title then
        let u2 := (media_type_from_text media_title).2
        if pyTruthy u2 then u2 else user_term0
      else user_term0
    let upcoming_only := computeUpcomingOnly mt upcoming_text parsed.temporal
    let year1 :=
      match parsed.temporal with
      | some (.yearT yv) => if ¬ pyTruthy year0 then some (toString yv) else year0
      | _ => year0
    let year_filter : Option String :=
      match year1 with
      | some ys => if ys = "" then none else findFourDigits ys
      | none => none
    let season_number : Option Int :=
      match season_text with
      | some ss => if ss = "" then none else firstIntRun ss
      | none => none
    match searchFn enhanced_title media_type with
    | .error .conn =>
      Except.ok ⟨⟨"I can\x27t reach the media server right now. Check your connection and try again.",
        none, true, none, none⟩, none, none⟩
    | .error .auth =>
      Except.ok ⟨⟨"There\x27s an authentication problem with the media server. Contact your administrator to fix this.",
        none, true, none, none⟩, none, none⟩
    | .error .generic =>
      Except.ok ⟨⟨"Something went wrong with that search. Try a different title or try again in a moment.",
        none, true, none, none⟩, none, none⟩
    | .ok results0 =>
      let original_results_count := results0.length
      let results_before_fuzzy := results0
      let results :=
        if results0 = [] then results0
        else fuzzy_match_results sc enhanced_title results0 60
      match pick_best today results upcoming_only (year_filter.map YearArg.str) with
      | .error e => .error e
      | .ok ranked =>
        if ranked = [] ∧ pyTruthy year_filter then
          match pick_best today results upcoming_only none with
          | .error e => .error e
          | .ok ranked_without_year =>
            match ranked_without_year with
            | first :: _ =>
              let year_from_result : Option String :=
                match first._releaseDate with
                | some rds => if rds = "" then none else some (pyTake rds 4)
                | none => none
              let speech :=
                match year_from_result with
                | some _ => "I couldn\x27t find \x27" ++ mt ++ "\x27 from " ++ pyStr year_filter
                    ++ ", but I found results from other years. Would you like to hear them?"
                | none => "I couldn\x27t find \x27" ++ mt ++ "\x27 from " ++ pyStr year_filter
                    ++ ", but I found other results. Would you like to hear them?"
              let state : SessState := {
                query := some mt, media_type := media_type, year := none,
                upcoming_only := upcoming_only, season := season_number,
                results := ranked_without_year, index := 0, user_term := user_term,
                pending_year_filter_question := true }
              Except.ok ⟨⟨speech, some "Would you like to hear results from other years?",
                false, some "Overtalkerr", some speech⟩, some state, none⟩
            | [] =>
              Except.ok (download_no_results ratioFn mt enhanced_title media_type year_filter
                upcoming_only season_number user_term original_results_count results_before_fuzzy)
        else if ranked = [] then
          Except.ok (download_no_results ratioFn mt enhanced_title media_type year_filter
            upcoming_only season_number user_term original_results_count results_before_fuzzy)
        else
          Except.ok (download_present today mt media_type year_filter upcoming_only
            season_number user_term ranked)

/-! ### Concrete fixtures -/

/-- The 1993 backend hit of the Jurassic World scenario. -/
def jw1993 : MediaItem :=
  { id := some 329, title := some "Jurassic Park", _title := some "Jurassic Park",
    _releaseDate := some "1993-06-11", _date := some ⟨1993, 6, 11⟩,
    _mediaType := some "movie" }

/-- The 2015 backend hit of the Jurassic World scenario. -/
def jw2015 : MediaItem :=
  { id := some 135397, title := some "Jurassic World", _title := some "Jurassic World",
    _releaseDate := some "2015-06-12", _date := some ⟨2015, 6, 12⟩,
    _mediaType := some "movie" }

/-- Download slots of the Jurassic World scenario. -/
def slotsJW : Slots := { MediaTitle := some "Jurassic World", Year := some "2015" }

/-! ### Session invariants and handler shape lemmas -/

/-- At most one of the three pending sub-question flags is truthy. -/
def atMostOnePending (st : SessState) : Prop :=
  (st.pending_year_filter_question = false ∧ st.pending_did_you_mean_question = false) ∨
  (st.pending_year_filter_question = false ∧ st.pending_media_type_clarification = false) ∨
  (st.pending_did_you_mean_question = false ∧ st.pending_media_type_clarification = false)

/-- A reference date for concrete evaluations. -/
def today0 : PyDate := ⟨2025, 1, 1⟩

/-- A `request_media` stub returning a plain success payload. -/
def reqOk : Int → String → Option Int → Except OvError ReqResult :=
  fun _ _ _ => Except.ok {}

/-- An already-available library title. -/
def availItem : MediaItem :=
  { id := some 11, _title := some "Avail Movie", _mediaType := some "movie",
    _isAvailable := true }

/-- A title currently downloading. -/
def procItem : MediaItem :=
  { id := some 5, _title := some "Proc Movie", _mediaType := some "movie",
    _isProcessing := true }

/-- A partially-available title (no season override in play). -/
def partialItem : MediaItem :=
  { id := some 77, _title := some "Show X", _mediaType := some "movie",
    _isPartiallyAvailable := true }

/-! ### More concrete fixtures for witnesses and counterexamples -/

/-- Session whose single cursor result is partially available. -/
def stPartial : SessState := { query := some "show x", results := [partialItem] }

/-- Session whose single cursor result is downloading. -/
def stProc : SessState := { query := some "p", results := [procItem] }

/-- Session whose single cursor result is already available. -/
def stAvail : SessState := { query := some "x", results := [availItem] }

/-- Session with the cursor on the last of two results. -/
def stTwo : SessState := { query := some "jw", results := [jw1993, jw2015], index := 1 }

/-- Session at the last result where that result is flagged available. -/
def stLastAvail : SessState :=
  { query := some "x", results := [jw1993, availItem], index := 1 }

/-- Session awaiting the year-relax confirmation, with no results left. -/
def stYearQ : SessState := { query := some "x", pending_year_filter_question := true }

/-- The state `handle_yes` persists for `stYearQ` (flag cleared). -/
def stYearQSaved : SessState := { query := some "x" }

/-- `handle_yes` output on `stPartial`: the request is created. -/
def outPartial : HandlerOut :=
  ⟨⟨"You got it! I\x27ve requested Show X. It should be available soon.", none, true,
    some "Request Created",
    some "You got it! I\x27ve requested Show X. It should be available soon."⟩,
   none, some (77, "movie", none)⟩

/-- `handle_yes` output on `stProc`: terminal informational, no request. -/
def outProc : HandlerOut :=
  ⟨⟨"Proc Movie is already being downloaded. It should be available soon!",
    none, true, none, none⟩, none, none⟩

/-- `handle_no` output on `stAvail`: inverted-polarity terminal success. -/
def outAvail : HandlerOut :=
  ⟨⟨"Perfect! Avail Movie is ready to watch in your library. Enjoy!",
    none, true, none, none⟩, none, none⟩

/-- `handle_no` output at the exhausted cursor. -/
def thatsAllOut : HandlerOut :=
  ⟨⟨"That\x27s all I could find. Would you like to search for something else?",
    some "What would you like to download?", true, none, none⟩, none, none⟩

/-- `handle_yes` output on `stYearQ`: flag cleared and saved, no results. -/
def outYearQ : HandlerOut :=
  ⟨⟨"I don\x27t have any results to show. Try a new search.", none, true, none, none⟩,
   some stYearQSaved, none⟩

/-! ### Theorems -/

theorem mem_insertStable (le : α → α → Bool) (a x : α) (l : List α) :
    x ∈ insertStable le a l ↔ x = a ∨ x ∈ l := by
  induction l with
  | nil => simp [insertStable]
  | cons b bs ih =>
    simp only [insertStable]
    split
    · simp [or_comm, or_assoc, or_left_comm]
    · simp [ih, or_comm, or_assoc, or_left_comm]

theorem mem_sortStable (le : α → α → Bool) (x : α) (l : List α) :
    x ∈ sortStable le l ↔ x ∈ l := by
  induction l with
  | nil => simp [sortStable]
  | cons b bs ih => simp [sortStable, mem_insertStable, ih]

theorem pairwise_insertStable (le : α → α → Bool)
    (htot : ∀ a b, le a b = true ∨ le b a = true)
    (htrans : ∀ a b c, le a b = true → le b c = true → le a c = true)
    (a : α) (l : List α) (h : l.Pairwise (fun x y => le x y = true)) :
    (insertStable le a l).Pairwise (fun x y => le x y = true) := by
  induction l with
  | nil => simp [insertStable]
  | cons b bs ih =>
    rcases List.pairwise_cons.mp h with ⟨hb, hbs⟩
    simp only [insertStable]
    split
    · rename_i hle
      refine List.pairwise_cons.mpr ⟨?_, h⟩
      intro x hx
      rcases List.mem_cons.mp hx with rfl | hx
      · exact hle
      · exact htrans _ _ _ hle (hb x hx)
    · rename_i hle
      refine List.pairwise_cons.mpr ⟨?_, ih hbs⟩
      intro x hx
      rcases (mem_insertStable le a x bs).mp hx with rfl | hx
      · rcases htot x b with h1 | h1
        · simp [h1] at hle
        · exact h1
      · exact hb x hx

theorem pairwise_sortStable (le : α → α → Bool)
    (htot : ∀ a b, le a b = true ∨ le b a = true)
    (htrans : ∀ a b c, le a b = true → le b c = true → le a c = true)
    (l : List α) :
    (sortStable le l).Pairwise (fun x y => le x y = true) := by
  induction l with
  | nil => simp [sortStable]
  | cons b bs ih => exact pairwise_insertStable le htot htrans b _ ih

theorem sortStable_eq_self (le : α → α → Bool) (l : List α)
    (h : l.Pairwise (fun x y => le x y = true)) :
    sortStable le l = l := by
  induction l with
  | nil => rfl
  | cons b bs ih =>
    rcases List.pairwise_cons.mp h with ⟨hb, hbs⟩
    simp only [sortStable, ih hbs]
    cases bs with
    | nil => rfl
    | cons c cs =>
      simp only [insertStable]
      rw [if_pos (hb c (List.mem_cons_self c cs))]

/-! ### Helper lemmas -/

theorem filterMap_eq_self {α : Type} (g : α → Option α) (l : List α)
    (h : ∀ x ∈ l, g x = some x) : l.filterMap g = l := by
  induction l with
  | nil => rfl
  | cons a as ih =>
    rw [List.filterMap_cons, h a (List.mem_cons_self a as),
      ih (fun x hx => h x (List.mem_cons.mpr (Or.inr hx)))]

theorem fuzzyLe_total (a b : MediaItem) : fuzzyLe a b = true ∨ fuzzyLe b a = true := by
  simp only [fuzzyLe, decide_eq_true_eq]
  exact Nat.le_total _ _

theorem fuzzyLe_trans (a b c : MediaItem) (h1 : fuzzyLe a b = true)
    (h2 : fuzzyLe b c = true) : fuzzyLe a c = true := by
  simp only [fuzzyLe, decide_eq_true_eq] at h1 h2 ⊢
  exact Nat.le_trans h2 h1

/-- With the caller-supplied string of length other than two, `pick_best`
raises `ValueError` before reading any result. -/
theorem pick_best_str_raises (today : PyDate) (results : List MediaItem)
    (upcoming_only : Bool) (s : String) (h1 : s ≠ "") (h2 : s.length ≠ 2) :
    pick_best today results upcoming_only (some (.str s))
      = Except.error (.valueError "too many values to unpack (expected 2)") := by
  simp only [pick_best, if_neg h1, if_pos h2]
  rfl

/-- `pick_best` with a `(start, end)` range tuple never raises and returns
the stable sort of the strictly filtered list. -/
theorem pick_best_range_eq (today : PyDate) (results : List MediaItem)
    (upcoming_only : Bool) (a b : Int) :
    pick_best today results upcoming_only (some (.range a b))
      = Except.ok (sortStable (pickBestLe today upcoming_only)
          (results.filter fun r =>
            match yearOf r with
            | some year => decide (a ≤ year ∧ year ≤ b)
            | none => false)) := rfl

/-! ### C1 -/

/-- C1: the Download("Jurassic World", Year="2015") scenario.  The handler
passes the year as the string `"2015"` to `pick_best`, whose tuple unpacking
`start_year, end_year = year_filter` raises an uncaught `ValueError`, so the
turn crashes for every enhancer parse, every fuzzy scorer and every backend
result list — no result is presented and `requestMedia` is never reached.
The claimed behaviour (present the 2015 hit first, then request it on Yes)
therefore does not occur. -/
theorem C1_download_jw2015_crashes (today : PyDate) (parseQ : String → ParsedQuery)
    (sc ratioFn : String → String → Nat) (items : List MediaItem) :
    handle_download today parseQ (fun _ _ => Except.ok items) sc ratioFn slotsJW
      = Except.error (.valueError "too many values to unpack (expected 2)") := by
  have hpb : ∀ (res : List MediaItem) (u : Bool),
      pick_best today res u (some (.str "2015"))
        = Except.error (.valueError "too many values to unpack (expected 2)") :=
    fun res u => pick_best_str_raises today res u "2015" (by decide) (by decide)
  have hfd : findFourDigits "2015" = some "2015" := rfl
  cases htemp : (parseQ "Jurassic World").temporal with
  | none => simp [handle_download, slotsJW, pyOrS, pyTruthy, hfd, hpb, htemp]
  | some t =>
    cases t with
    | relative days => simp [handle_download, slotsJW, pyOrS, pyTruthy, hfd, hpb, htemp]
    | yearT yv => simp [handle_download, slotsJW, pyOrS, pyTruthy, hfd, hpb, htemp]

/-! ### C2 -/

/-- C2: the `matchQuality` component of `pick_best`'s sort key reads the
dict key `_combined_score`, which no code in the repository ever writes;
the fuzzy-matching stage stores its score under `_fuzzy_score`.  Evaluated
on a result the fuzzy stage scored 100, the key's middle component is 0,
refuting "matchQuality equals the fuzzy score and is 0 only when no fuzzy
score was computed". -/
theorem C2_match_quality_never_sees_fuzzy_score :
    fuzzy_match_results (fun _ _ => 100) "jurassic world" [jw2015] 60
        = [{ jw2015 with _fuzzy_score := some 100 }] ∧
    ({ jw2015 with _fuzzy_score := some 100 } : MediaItem)._fuzzy_score = some 100 ∧
    (scoreKey ⟨2025, 1, 1⟩ false { jw2015 with _fuzzy_score := some 100 }).2.1 = 0 := by
  exact ⟨by decide, rfl, rfl⟩

/-! ### C3 -/

/-- C3: a 401/403 search response does not surface as `AuthError`.  The
`MediaBackendAuthError` raised inside the `try` body of
`OverseerrBackend.search` is caught by its own final `except Exception`
clause and re-raised as a plain `MediaBackendError`, which the
`overseerr.search` wrapper maps to the generic error — contradicting both
the claim and the wrapper's docstring.  Timeout and transport failures are
classified as the claim says. -/
theorem C3_auth_misclassified_as_generic :
    overseerrBackend_search (.response 401 [])
        = Except.error (.backendError "Search failed: Invalid API key") ∧
    overseerr_search (.response 401 []) = Except.error .generic ∧
    overseerr_search (.response 403 []) = Except.error .generic ∧
    overseerr_search .timeout = Except.error .conn ∧
    overseerr_search .connFail = Except.error .conn ∧
    overseerr_search (.response 500 []) = Except.error .generic := by
  exact ⟨rfl, rfl, rfl, rfl, rfl, rfl⟩

/-! ### C5 -/

/-- C5: with an inclusive year range `(a, b)`, every element of
`pick_best`'s output has a parseable release year inside the range (results
without a parseable year are dropped by the same filter), and empty input
yields empty output. -/
theorem C5_pick_best_year_range_strict (today : PyDate) (results : List MediaItem)
    (upcoming_only : Bool) (a b : Int) (out : List MediaItem)
    (h : pick_best today results upcoming_only (some (.range a b)) = Except.ok out) :
    (∀ r ∈ out, ∃ y, yearOf r = some y ∧ a ≤ y ∧ y ≤ b) ∧
    (results = [] → out = []) := by
  rw [pick_best_range_eq] at h
  injection h with h
  constructor
  · intro r hr
    rw [← h] at hr
    have hmem := (mem_sortStable _ r _).mp hr
    have hp := List.of_mem_filter hmem
    revert hp
    cases hy : yearOf r with
    | none => intro hp; exact absurd hp (by simp)
    | some y =>
      intro hp
      simp only [decide_eq_true_eq] at hp
      exact ⟨y, rfl, hp.1, hp.2⟩
  · intro hnil
    subst hnil
    simp [sortStable] at h
    exact h

/-- Witness for C5: on the concrete two-hit list with range (2015, 2015)
only the 2015 result survives and its parsed year is in range. -/
theorem C5_witness :
    pick_best ⟨2025, 1, 1⟩ [jw1993, jw2015] false (some (.range 2015 2015))
        = Except.ok [jw2015] ∧
    (∀ r ∈ [jw2015], ∃ y, yearOf r = some y ∧ (2015 : Int) ≤ y ∧ y ≤ 2015) ∧
    (([jw1993, jw2015] : List MediaItem) = [] → ([jw2015] : List MediaItem) = []) := by
  refine ⟨by decide, ?_, ?_⟩
  · exact (C5_pick_best_year_range_strict ⟨2025, 1, 1⟩ [jw1993, jw2015] false
      2015 2015 [jw2015] (by decide)).1
  · exact (C5_pick_best_year_range_strict ⟨2025, 1, 1⟩ [jw1993, jw2015] false
      2015 2015 [jw2015] (by decide)).2

/-! ### C7 -/

/-- C7: the fuzzy filter is idempotent — every survivor of a first pass has
an unchanged title, already carries its `_fuzzy_score`, and scores at or
above the threshold again, so the second pass keeps everything, rewrites
the same score, and the stable sort of an already-sorted list is itself. -/
theorem C7_fuzzy_match_results_idempotent (sc : String → String → Nat)
    (query : String) (results : List MediaItem) (threshold : Nat) :
    fuzzy_match_results sc query (fuzzy_match_results sc query results threshold) threshold
      = fuzzy_match_results sc query results threshold := by
  by_cases hres : results = []
  · subst hres
    simp [fuzzy_match_results]
  · have hout : fuzzy_match_results sc query results threshold
        = sortStable fuzzyLe (results.filterMap fun r =>
            let best_score := sc (pyLower query) (pyLower (getTitleF r))
            if threshold ≤ best_score then some (setFuzzy r best_score) else none) := by
      simp [fuzzy_match_results, hres]
    set out := fuzzy_match_results sc query results threshold with hdef
    by_cases hempty : out = []
    · rw [hempty]
      simp [fuzzy_match_results]
    · have hmemfacts : ∀ r ∈ out,
          threshold ≤ sc (pyLower query) (pyLower (getTitleF r)) ∧
          setFuzzy r (sc (pyLower query) (pyLower (getTitleF r))) = r := by
        intro r hr
        rw [hout] at hr
        have hr2 := (mem_sortStable _ r _).mp hr
        rcases List.mem_filterMap.mp hr2 with ⟨r0, _, hg⟩
        simp only at hg
        by_cases hth : threshold ≤ sc (pyLower query) (pyLower (getTitleF r0))
        · rw [if_pos hth] at hg
          injection hg with hg
          subst hg
          exact ⟨hth, rfl⟩
        · rw [if_neg hth] at hg
          exact absurd hg (by simp)
      have hkeep : (out.filterMap fun r =>
          let best_score := sc (pyLower query) (pyLower (getTitleF r))
          if threshold ≤ best_score then some (setFuzzy r best_score) else none) = out := by
        apply filterMap_eq_self
        intro r hr
        rcases hmemfacts r hr with ⟨hth, hset⟩
        simp only [if_pos hth, hset]
      have hsorted : out.Pairwise (fun x y => fuzzyLe x y = true) := by
        rw [hout]
        exact pairwise_sortStable fuzzyLe fuzzyLe_total fuzzyLe_trans _
      calc fuzzy_match_results sc query out threshold
          = sortStable fuzzyLe (out.filterMap fun r =>
              let best_score := sc (pyLower query) (pyLower (getTitleF r))
              if threshold ≤ best_score then some (setFuzzy r best_score) else none) := by
            simp [fuzzy_match_results, hempty]
        _ = sortStable fuzzyLe out := by rw [hkeep]
        _ = out := sortStable_eq_self fuzzyLe out hsorted

theorem handle_no_save_shape (today : PyDate) (st : SessState) (out : HandlerOut)
    (hA : atMostOnePending st)
    (h : handle_no today (some st) = Except.ok out) :
    ∀ st', out.save = some st' →
      atMostOnePending st' ∧ st'.index ≤ st'.results.length := by
  intro st' hs
  by_cases hpmc : st.pending_media_type_clarification = true
  · simp only [handle_no, hpmc, if_true] at h
    split at h
    · injection h with h
      subst h
      simp only at hs
      injection hs with hs
      subst hs
      have hflags : st.pending_year_filter_question = false ∧
          st.pending_did_you_mean_question = false := by
        rcases hA with ⟨h1, h2⟩ | ⟨h1, h2⟩ | ⟨h1, h2⟩
        · exact ⟨h1, h2⟩
        · rw [hpmc] at h2; exact absurd h2 (by simp)
        · rw [hpmc] at h2; exact absurd h2 (by simp)
      exact ⟨Or.inl ⟨hflags.1, hflags.2⟩, by simp⟩
    · injection h with h
      subst h
      simp at hs
  · simp only [Bool.not_eq_true] at hpmc
    by_cases hpy : st.pending_year_filter_question = true
    · simp only [handle_no, hpmc, hpy, Bool.false_eq_true, if_false, if_true] at h
      injection h with h; subst h; simp at hs
    · simp only [Bool.not_eq_true] at hpy
      by_cases hdym : st.pending_did_you_mean_question = true
      · simp only [handle_no, hpmc, hpy, hdym, Bool.false_eq_true, if_false, if_true] at h
        injection h with h; subst h; simp at hs
      · simp only [Bool.not_eq_true] at hdym
        simp only [handle_no, hpmc, hpy, hdym, Bool.false_eq_true, if_false] at h
        split at h
        · cases h
        · injection h with h; subst h; simp at hs
        · split at h
          · injection h with h; subst h; simp at hs
          · split at h
            · cases h
            · injection h with h; subst h
              simp only at hs
              injection hs with hs
              subst hs
              constructor
              · exact Or.inl ⟨rfl, rfl⟩
              · simp only
                omega

theorem handle_no_total (today : PyDate) (state? : Option SessState) :
    ∃ out, handle_no today state? = Except.ok out := by
  match state? with
  | none => exact ⟨_, rfl⟩
  | some st =>
    by_cases hpmc : st.pending_media_type_clarification = true
    · simp only [handle_no, hpmc, if_true]
      split
      · exact ⟨_, rfl⟩
      · exact ⟨_, rfl⟩
    · simp only [Bool.not_eq_true] at hpmc
      by_cases hpy : st.pending_year_filter_question = true
      · simp only [handle_no, hpmc, hpy, Bool.false_eq_true, if_false, if_true]
        exact ⟨_, rfl⟩
      · simp only [Bool.not_eq_true] at hpy
        by_cases hdym : st.pending_did_you_mean_question = true
        · simp only [handle_no, hpmc, hpy, hdym, Bool.false_eq_true, if_false, if_true]
          exact ⟨_, rfl⟩
        · simp only [Bool.not_eq_true] at hdym
          simp only [handle_no, hpmc, hpy, hdym, Bool.false_eq_true, if_false]
          by_cases hlt : st.index < st.results.length
          · rw [if_pos hlt]
            have hget := List.get?_eq_get hlt
            simp only [pyIndex, hget]
            by_cases hav : (st.results.get ⟨st.index, hlt⟩)._isAvailable = true
            · rw [hav]
              exact ⟨_, rfl⟩
            · simp only [Bool.not_eq_true] at hav
              simp only [hav, Bool.false_eq_true, if_false]
              by_cases hle : st.results.length ≤ st.index + 1
              · rw [if_pos hle]
                exact ⟨_, rfl⟩
              · rw [if_neg hle]
                have hlt2 : st.index + 1 < st.results.length := by omega
                have hget2 := List.get?_eq_get hlt2
                simp only [pyIndex, hget2]
                exact ⟨_, rfl⟩
          · rw [if_neg hlt]
            have hle : st.results.length ≤ st.index + 1 := by omega
            rw [if_pos hle]
            exact ⟨_, rfl⟩

theorem handle_yes_save_shape (today : PyDate)
    (reqFn : Int → String → Option Int → Except OvError ReqResult)
    (st : SessState) (out : HandlerOut)
    (hA : atMostOnePending st) (hI : st.index ≤ st.results.length)
    (h : handle_yes today reqFn (some st) = Except.ok out) :
    ∀ st', out.save = some st' →
      atMostOnePending st' ∧ st'.index ≤ st'.results.length := by
  intro st' hs
  by_cases hpmc : st.pending_media_type_clarification = true
  · have hflags : st.pending_year_filter_question = false ∧
        st.pending_did_you_mean_question = false := by
      rcases hA with ⟨h1, h2⟩ | ⟨h1, h2⟩ | ⟨h1, h2⟩
      · exact ⟨h1, h2⟩
      · rw [hpmc] at h2; exact absurd h2 (by simp)
      · rw [hpmc] at h2; exact absurd h2 (by simp)
    simp only [handle_yes, hpmc, hflags.1, hflags.2, if_true] at h
    split at h
    · injection h with h; subst h
      simp only at hs
      injection hs with hs; subst hs
      exact ⟨Or.inl ⟨rfl, rfl⟩, by simp⟩
    · injection h with h; subst h; simp at hs
  · simp only [Bool.not_eq_true] at hpmc
    by_cases hpy : st.pending_year_filter_question = true
    · have hdym : st.pending_did_you_mean_question = false := by
        rcases hA with ⟨h1, h2⟩ | ⟨h1, h2⟩ | ⟨h1, h2⟩
        · rw [hpy] at h1; exact absurd h1 (by simp)
        · rw [hpy] at h1; exact absurd h1 (by simp)
        · exact h1
      simp only [handle_yes, hpmc, hpy, hdym, Bool.false_eq_true, if_false, if_true] at h
      split at h
      · injection h with h; subst h
        simp only at hs
        injection hs with hs; subst hs
        exact ⟨Or.inl ⟨rfl, rfl⟩, hI⟩
      · injection h with h; subst h
        simp only at hs
        injection hs with hs; subst hs
        exact ⟨Or.inl ⟨rfl, rfl⟩, hI⟩
    · simp only [Bool.not_eq_true] at hpy
      by_cases hdym : st.pending_did_you_mean_question = true
      · simp only [handle_yes, hpmc, hpy, hdym, Bool.false_eq_true, if_false, if_true] at h
        split at h
        · injection h with h; subst h
          simp only at hs
          injection hs with hs; subst hs
          exact ⟨Or.inl ⟨rfl, rfl⟩, hI⟩
        · injection h with h; subst h
          simp only at hs
          injection hs with hs; subst hs
          exact ⟨Or.inl ⟨rfl, rfl⟩, hI⟩
      · simp only [Bool.not_eq_true] at hdym
        simp only [handle_yes, hpmc, hpy, hdym, Bool.false_eq_true, if_false] at h
        repeat' split at h
        all_goals first
          | (cases h; simp at hs)
          | cases h

theorem handle_yes_error_only_auth (today : PyDate)
    (reqFn : Int → String → Option Int → Except OvError ReqResult)
    (state? : Option SessState) (e : PyErr)
    (h : handle_yes today reqFn state? = Except.error e) :
    e = PyErr.overseerrAuthError := by
  match state? with
  | none => cases h
  | some st =>
    by_cases hpmc : st.pending_media_type_clarification = true
    · simp only [handle_yes, hpmc, if_true] at h
      split at h
      · cases h
      · cases h
    · simp only [Bool.not_eq_true] at hpmc
      by_cases hpy : st.pending_year_filter_question = true
      · simp only [handle_yes, hpmc, hpy, Bool.false_eq_true, if_false, if_true] at h
        split at h
        · cases h
        · cases h
      · simp only [Bool.not_eq_true] at hpy
        by_cases hdym : st.pending_did_you_mean_question = true
        · simp only [handle_yes, hpmc, hpy, hdym, Bool.false_eq_true, if_false, if_true] at h
          split at h
          · cases h
          · cases h
        · simp only [Bool.not_eq_true] at hdym
          simp only [handle_yes, hpmc, hpy, hdym, Bool.false_eq_true, if_false] at h
          by_cases hle : st.results.length ≤ st.index
          · rw [if_pos hle] at h
            cases h
          · rw [if_neg hle] at h
            have hlt : st.index < st.results.length := by omega
            have hget := List.get?_eq_get hlt
            simp only [pyIndex, hget] at h
            repeat' split at h
            all_goals first
              | (cases h; rfl)
              | cases h

theorem download_no_results_save (ratioFn : String → String → Nat)
    (mt et : String) (mtype : Option String) (yf : Option String)
    (u : Bool) (sn : Option Int) (ut : Option String)
    (cnt : Nat) (rbf : List MediaItem) (st' : SessState)
    (hs : (download_no_results ratioFn mt et mtype yf u sn ut cnt rbf).save = some st') :
    atMostOnePending st' ∧ st'.index = 0 ∧ st'.results ≠ [] ∧ st'.upcoming_only = u := by
  simp only [download_no_results] at hs
  repeat' split at hs
  all_goals first
    | (simp only at hs; injection hs with hs; subst hs;
       exact ⟨by simp [atMostOnePending], rfl, by simp, rfl⟩)
    | simp at hs

theorem download_present_save (today : PyDate) (mt : String) (mtype : Option String)
    (yf : Option String) (u : Bool) (sn : Option Int) (ut : Option String)
    (ranked : List MediaItem) (hr : ranked ≠ []) (st' : SessState)
    (hs : (download_present today mt mtype yf u sn ut ranked).save = some st') :
    atMostOnePending st' ∧ st'.index = 0 ∧ st'.results ≠ [] ∧ st'.upcoming_only = u := by
  simp only [download_present] at hs
  split at hs
  all_goals
    (simp only at hs; injection hs with hs; subst hs;
     exact ⟨by simp [atMostOnePending], rfl, hr, rfl⟩)

set_option maxHeartbeats 2000000 in
theorem handle_download_save_shape (today : PyDate) (parseQ : String → ParsedQuery)
    (searchFn : String → Option String → Except OvError (List MediaItem))
    (sc ratioFn : String → String → Nat) (slots : Slots) (out : HandlerOut)
    (st' : SessState)
    (h : handle_download today parseQ searchFn sc ratioFn slots = Except.ok out)
    (hs : out.save = some st') :
    atMostOnePending st' ∧ st'.index = 0 ∧ st'.results ≠ [] ∧
    st'.upcoming_only = computeUpcomingOnly ((pyOrS slots.MediaTitle slots.title).getD "")
      (pyOrS slots.Upcoming slots.upcoming)
      ((parseQ ((pyOrS slots.MediaTitle slots.title).getD "")).temporal) := by
  simp only [handle_download] at h
  repeat' split at h
  all_goals cases h
  all_goals first
    | (exfalso; revert hs; simp; done)
    | (exact download_no_results_save _ _ _ _ _ _ _ _ _ _ _ hs)
    | (exact download_present_save _ _ _ _ _ _ _ _ (by assumption) _ hs)
    | (injection hs with hs; subst hs;
       exact ⟨by simp [atMostOnePending], rfl, by simp, rfl⟩)

theorem computeUpcomingOnly_of_word (mt : String) (ut : Option String)
    (tmp : Option Temporal) (h : containsWordUpcoming mt = true) :
    computeUpcomingOnly mt ut tmp = true := by
  have hne : mt ≠ "" := by
    intro he
    rw [he] at h
    exact absurd h (by decide)
  simp only [computeUpcomingOnly]
  rw [if_pos (show mt ≠ "" ∧ containsWordUpcoming mt = true from ⟨hne, h⟩)]
  cases tmp with
  | none => rfl
  | some t =>
    cases t with
    | relative days => by_cases hd : days < 0 <;> simp [hd]
    | yearT y => rfl

/-! ### C4 -/

/-- C4 (counterexample): a Yes intent on a partially-available result with no
season override does not stop at an informational response — `handle_yes`
falls through the `_isPartiallyAvailable` branch (which has no `return`) and
invokes `request_media` with the result's id. -/
theorem C4_counterexample_partial_is_requested :
    handle_yes today0 reqOk (some stPartial) = Except.ok outPartial ∧
    outPartial.requested = some (77, "movie", none) := by
  exact ⟨by decide, rfl⟩

/-- C4 (amended): with no pending sub-question flag, a Yes intent on a
`processing` or `pending` cursor result returns a terminal response and
never calls `request_media`; but on a `partially_available` result (not
available, processing or pending) with a truthy media id, the engine
proceeds and `request_media` is invoked — the informational sentence is
advisory, not terminal. -/
theorem C4_amended_availability_gate (today : PyDate)
    (reqFn : Int → String → Option Int → Except OvError ReqResult)
    (st : SessState) (cur : MediaItem) (out : HandlerOut)
    (hc : st.pending_media_type_clarification = false)
    (hy : st.pending_year_filter_question = false)
    (hd : st.pending_did_you_mean_question = false)
    (hcur : st.results.get? st.index = some cur)
    (h : handle_yes today reqFn (some st) = Except.ok out) :
    (cur._isProcessing = true → out.requested = none ∧ out.resp.should_end_session = true) ∧
    (cur._isProcessing = false → cur._isPending = true →
      out.requested = none ∧ out.resp.should_end_session = true) ∧
    (cur._isAvailable = false → cur._isProcessing = false → cur._isPending = false →
      cur._isPartiallyAvailable = true →
      pyTruthyI (pyOrI (pyOrI cur.id cur.mediaId) cur.tmdbId) = true →
      out.requested = some ((pyOrI (pyOrI cur.id cur.mediaId) cur.tmdbId).getD 0,
        (pyOrS (pyOrS cur._mediaType st.media_type) (some "movie")).getD "", st.season)) := by
  obtain ⟨hlt, -⟩ := List.get?_eq_some.mp hcur
  have hnle : ¬ st.results.length ≤ st.index := by omega
  simp only [handle_yes, hc, hy, hd, Bool.false_eq_true, if_false, if_neg hnle,
    pyIndex, hcur] at h
  repeat' split at h
  all_goals cases h
  all_goals refine ⟨?_, ?_, ?_⟩ <;> intros <;> simp_all

/-- Witness for C4: the processing fixture takes the terminal branch with no
request issued. -/
theorem C4_witness : outProc.requested = none ∧ outProc.resp.should_end_session = true :=
  (C4_amended_availability_gate today0 reqOk stProc procItem outProc rfl rfl rfl
    (by decide) (by decide)).1 rfl

/-! ### C6 -/

/-- C6: a No intent with no pending flag on a cursor result flagged
available returns the inverted-polarity terminal success message with
end-of-session set, and persists nothing (the cursor is not advanced). -/
theorem C6_no_on_available_terminal_success (today : PyDate) (st : SessState)
    (cur : MediaItem) (out : HandlerOut)
    (hc : st.pending_media_type_clarification = false)
    (hy : st.pending_year_filter_question = false)
    (hd : st.pending_did_you_mean_question = false)
    (hcur : st.results.get? st.index = some cur)
    (hav : cur._isAvailable = true)
    (h : handle_no today (some st) = Except.ok out) :
    out.resp.should_end_session = true ∧ out.save = none ∧
    out.resp.speech = "Perfect! " ++ (cur._title).getD "that title"
      ++ " is ready to watch in your library. Enjoy!" := by
  obtain ⟨hlt, -⟩ := List.get?_eq_some.mp hcur
  simp only [handle_no, hc, hy, hd, Bool.false_eq_true, if_false, if_pos hlt,
    pyIndex, hcur, hav, if_true] at h
  injection h with h
  subst h
  exact ⟨rfl, rfl, rfl⟩

/-- Witness for C6: the available fixture. -/
theorem C6_witness :
    outAvail.resp.should_end_session = true ∧ outAvail.save = none ∧
    outAvail.resp.speech = "Perfect! " ++ (availItem._title).getD "that title"
      ++ " is ready to watch in your library. Enjoy!" :=
  C6_no_on_available_terminal_success today0 stAvail availItem outAvail rfl rfl rfl
    (by decide) rfl (by decide)

/-! ### C8 -/

/-- C8: every session state persisted by the Download, Yes or No handler
has at most one pending sub-question flag set, assuming (inductively) the
same of the loaded state. -/
theorem C8_at_most_one_pending_flag :
    (∀ (today : PyDate) (parseQ : String → ParsedQuery)
        (searchFn : String → Option String → Except OvError (List MediaItem))
        (sc ratioFn : String → String → Nat) (slots : Slots) (out : HandlerOut)
        (st' : SessState),
        handle_download today parseQ searchFn sc ratioFn slots = Except.ok out →
        out.save = some st' → atMostOnePending st') ∧
    (∀ (today : PyDate) (reqFn : Int → String → Option Int → Except OvError ReqResult)
        (st : SessState) (out : HandlerOut) (st' : SessState),
        atMostOnePending st → st.index ≤ st.results.length →
        handle_yes today reqFn (some st) = Except.ok out →
        out.save = some st' → atMostOnePending st') ∧
    (∀ (today : PyDate) (st : SessState) (out : HandlerOut) (st' : SessState),
        atMostOnePending st →
        handle_no today (some st) = Except.ok out →
        out.save = some st' → atMostOnePending st') := by
  refine ⟨?_, ?_, ?_⟩
  · intro today parseQ searchFn sc ratioFn slots out st' h hs
    exact (handle_download_save_shape today parseQ searchFn sc ratioFn slots out st' h hs).1
  · intro today reqFn st out st' hA hI h hs
    exact (handle_yes_save_shape today reqFn st out hA hI h st' hs).1
  · intro today st out st' hA h hs
    exact (handle_no_save_shape today st out hA h st' hs).1

/-- Witness for C8: clearing the year-relax flag persists a state with no
flag set. -/
theorem C8_witness : atMostOnePending stYearQSaved :=
  C8_at_most_one_pending_flag.2.1 today0 reqOk stYearQ outYearQ stYearQSaved
    (Or.inr (Or.inr ⟨rfl, rfl⟩)) (by decide) (by decide) rfl

/-! ### C9 -/

/-- C9 (counterexample): at the last cursor position, if that result is
flagged available, a No intent returns the inverted-polarity success
message, not the "nothing else found" response the claim demands
unconditionally. -/
theorem C9_counterexample_available_at_last :
    handle_no today0 (some stLastAvail) = Except.ok outAvail ∧
    outAvail.resp.speech
      ≠ "That\x27s all I could find. Would you like to search for something else?" := by
  exact ⟨by decide, by decide⟩

/-- C9 (amended): persisted cursor indices stay within bounds — Download
saves cursor 0 on a non-empty list, Yes and No preserve `index ≤
len(results)`; the No handler never raises, and the Yes handler never
raises from its cursor logic — every list access is bounds-checked, and
the only exception that can escape it is the `OverseerrAuthError` that
`request_media` may raise, which its `except` clauses do not catch; a No
intent at the last cursor position with no pending flag terminates with
the "nothing else found" response, provided the current result is not
flagged available (that case takes the inverted-polarity terminal success
of C6). -/
theorem C9_cursor_bounds_amended :
    (∀ (today : PyDate) (parseQ : String → ParsedQuery)
        (searchFn : String → Option String → Except OvError (List MediaItem))
        (sc ratioFn : String → String → Nat) (slots : Slots) (out : HandlerOut)
        (st' : SessState),
        handle_download today parseQ searchFn sc ratioFn slots = Except.ok out →
        out.save = some st' → st'.index = 0 ∧ st'.index < st'.results.length) ∧
    (∀ (today : PyDate) (reqFn : Int → String → Option Int → Except OvError ReqResult)
        (st : SessState) (out : HandlerOut) (st' : SessState),
        atMostOnePending st → st.index ≤ st.results.length →
        handle_yes today reqFn (some st) = Except.ok out →
        out.save = some st' → st'.index ≤ st'.results.length) ∧
    (∀ (today : PyDate) (st : SessState) (out : HandlerOut) (st' : SessState),
        atMostOnePending st →
        handle_no today (some st) = Except.ok out →
        out.save = some st' → st'.index ≤ st'.results.length) ∧
    (∀ (today : PyDate) (state? : Option SessState),
        ∃ out, handle_no today state? = Except.ok out) ∧
    (∀ (today : PyDate) (reqFn : Int → String → Option Int → Except OvError ReqResult)
        (state? : Option SessState) (e : PyErr),
        handle_yes today reqFn state? = Except.error e →
        e = PyErr.overseerrAuthError) ∧
    (∀ (today : PyDate) (st : SessState) (cur : MediaItem),
        st.pending_media_type_clarification = false →
        st.pending_year_filter_question = false →
        st.pending_did_you_mean_question = false →
        st.results.get? st.index = some cur → cur._isAvailable = false →
        st.index + 1 = st.results.length →
        handle_no today (some st) = Except.ok thatsAllOut) := by
  refine ⟨?_, ?_, ?_, handle_no_total, handle_yes_error_only_auth, ?_⟩
  · intro today parseQ searchFn sc ratioFn slots out st' h hs
    obtain ⟨-, hz, hne, -⟩ := handle_download_save_shape today parseQ searchFn sc
      ratioFn slots out st' h hs
    exact ⟨hz, hz ▸ List.length_pos.mpr hne⟩
  · intro today reqFn st out st' hA hI h hs
    exact (handle_yes_save_shape today reqFn st out hA hI h st' hs).2
  · intro today st out st' hA h hs
    exact (handle_no_save_shape today st out hA h st' hs).2
  · intro today st cur hc hy hd hcur hav hlen
    obtain ⟨hlt, -⟩ := List.get?_eq_some.mp hcur
    have hle : st.results.length ≤ st.index + 1 := by omega
    simp only [handle_no, hc, hy, hd, hav, Bool.false_eq_true, if_false, if_pos hlt,
      pyIndex, hcur, if_pos hle, thatsAllOut]

/-- Witness for C9: the two-result session at its last cursor terminates
with the "nothing else found" response. -/
theorem C9_witness : handle_no today0 (some stTwo) = Except.ok thatsAllOut :=
  C9_cursor_bounds_amended.2.2.2.2.2 today0 stTwo jw2015 rfl rfl rfl (by decide) rfl
    (by decide)

/-! ### C10 -/

/-- C10: whenever the title slot contains the whole word "upcoming"
(case-insensitive, per the `\bupcoming\b` regex), the computed
upcoming-only constraint is true for every value of the `Upcoming` slot and
of the enhancer's temporal filter, and every state the Download handler
persists carries `upcoming_only = true`. -/
theorem C10_upcoming_word_in_title_forces_flag :
    (∀ (mt : String) (ut : Option String) (tmp : Option Temporal),
        containsWordUpcoming mt = true → computeUpcomingOnly mt ut tmp = true) ∧
    (∀ (today : PyDate) (parseQ : String → ParsedQuery)
        (searchFn : String → Option String → Except OvError (List MediaItem))
        (sc ratioFn : String → String → Nat) (slots : Slots) (out : HandlerOut)
        (st' : SessState),
        handle_download today parseQ searchFn sc ratioFn slots = Except.ok out →
        out.save = some st' →
        containsWordUpcoming ((pyOrS slots.MediaTitle slots.title).getD "") = true →
        st'.upcoming_only = true) := by
  constructor
  · exact computeUpcomingOnly_of_word
  · intro today parseQ searchFn sc ratioFn slots out st' h hs hw
    have hup := (handle_download_save_shape today parseQ searchFn sc ratioFn
      slots out st' h hs).2.2.2
    rw [hup]
    exact computeUpcomingOnly_of_word _ _ _ hw

/-- Witness for C10: a spoken title containing the word "upcoming". -/
theorem C10_witness :
    computeUpcomingOnly "the Upcoming show Robin Hood" none none = true :=
  C10_upcoming_word_in_title_forces_flag.1 "the Upcoming show Robin Hood" none none
    (by decide)

end Overtalkerr
